import Mathlib

/-!
Verification of `googlemaps/places.py`: a parameter-marshaling layer over the
Google Places HTTP API.  Each Python function builds a query-parameter mapping
from its keyword arguments and delegates the network call to an injected
client collaborator (`client._get`).  We embed the parameter mappings as
association lists (insertion order of the Python dict), the collaborator as a
function from requests to JSON values, and a Python `raise` as `Except.error`.
Python truthiness tests (`if x:`) are embedded explicitly: `None`, `0` and `""`
are falsy.
-/

namespace Places

/-- A primitive query-parameter value (string or int), as placed in the
Python `params` dict. -/
inductive Value where
  | str (s : String)
  | int (n : Int)
deriving DecidableEq, Repr

/-- A JSON value, for the collaborator's response envelope. -/
inductive JVal where
  | str (s : String)
  | num (n : Int)
  | bool (b : Bool)
  | arr (xs : List JVal)
  | obj (fields : List (String × JVal))

/-- Python `obj["key"]` on a JSON object, as an `Option`. -/
def getField (key : String) : JVal → Option JVal
  | .obj fields => fields.lookup key
  | _ => none

/-- The request handed to the collaborator: the endpoint path and the
query-parameter mapping, in insertion order. -/
structure Request where
  path : String
  params : List (String × Value)
deriving DecidableEq, Repr

/-- Lookup of a key in a request's parameter mapping. -/
def Request.param (r : Request) (key : String) : Option Value :=
  r.params.lookup key

/-- `if x: params[key] = f(x)` — inclusion of one optional keyword argument
into the params dict: an absent or falsy value contributes nothing. -/
def ifParam {α : Type} (key : String) (truthy : α → Bool) (val : α → Value) :
    Option α → List (String × Value)
  | none => []
  | some x => if truthy x then [(key, val x)] else []

/-- `if b: params[key] = v` for a plain boolean flag. -/
def boolParam (key : String) (val : Value) (b : Bool) : List (String × Value) :=
  if b then [(key, val)] else []

/-- The value an `ifParam` entry contributes under its own key. -/
def optVal {α : Type} (truthy : α → Bool) (val : α → Value) : Option α → Option Value
  | none => none
  | some x => if truthy x then some (val x) else none

/-- Python truthiness of an optional int (`None` and `0` are falsy). -/
def pyTruthyInt : Option Int → Bool
  | none => false
  | some n => n != 0

/-- A coordinate argument, polymorphic over the three accepted shapes.
Modelled from the spec: the spec's data model says a Coordinate is "input
polymorphic over \x7bstring "lat,lng", mapping \x7blat, lng\x7d, two-element
sequence\x7d". -/
inductive Coordinate where
  | str (s : String)
  | mapping (lat lng : Int)
  | seq (lat lng : Int)
deriving DecidableEq, Repr

/-- Modelled from the spec: `convert.latlng` lives in `googlemaps/convert.py`,
which is not under src/; the spec says a coordinate is "normalized to a single
canonical string form "lat,lng" before insertion into ParameterMapping". -/
def latlng : Coordinate → String
  | .str s => s
  | .mapping lat lng => toString lat ++ "," ++ toString lng
  | .seq lat lng => toString lat ++ "," ++ toString lng

/-- Python truthiness of a coordinate value: the empty string is falsy, a
two-field mapping or two-element sequence is truthy. -/
def Coordinate.truthy : Coordinate → Bool
  | .str s => s != ""
  | .mapping _ _ => true
  | .seq _ _ => true

/-- One round through an operation: `Except.error` means the operation raised
before any collaborator call (the request trace is empty); `Except.ok r` means
the collaborator is invoked exactly once with `r` and the response is
post-processed by `post`. -/
def run {α : Type} (get : Request → JVal) (post : JVal → α)
    (req : Except String Request) : Except String α × List Request :=
  match req with
  | .error e => (.error e, [])
  | .ok r => (.ok (post (get r)), [r])

/-- Keyword arguments of `places` with their Python defaults. -/
structure PlacesArgs where
  query : String
  location : Option Coordinate := none
  radius : Option Int := none
  language : Option String := none
  min_price : Option Int := none
  max_price : Option Int := none
  open_now : Bool := false
  types : Option String := none
  page_token : Option String := none

/-- The params dict and endpoint built by `places` (text search).  `types` is
accepted by the Python signature but never written into the dict. -/
def places_request (a : PlacesArgs) : Request :=
  ⟨"/maps/api/place/textsearch/json",
    ("query", Value.str a.query)
    :: (ifParam "location" Coordinate.truthy (fun l => Value.str (latlng l)) a.location
    ++ (ifParam "radius" (fun n => n != 0) Value.int a.radius
    ++ (ifParam "language" (fun s => s != "") Value.str a.language
    ++ (ifParam "minprice" (fun n => n != 0) Value.int a.min_price
    ++ (ifParam "maxprice" (fun n => n != 0) Value.int a.max_price
    ++ (boolParam "opennow" (Value.str "true") a.open_now
    ++ ifParam "pagetoken" (fun s => s != "") Value.str a.page_token))))))⟩

/-- `places` request building: the body contains no `raise`, so it always
succeeds. -/
def places_req (a : PlacesArgs) : Except String Request :=
  .ok (places_request a)

/-- `places` run against a collaborator: builds the params and returns the
response envelope unchanged. -/
def places (get : Request → JVal) (a : PlacesArgs) :
    Except String JVal × List Request :=
  run get id (places_req a)

/-- The params dict and endpoint built by `place` (detail lookup). -/
def place_request (place_id : String) (language : Option String) : Request :=
  ⟨"/maps/api/place/details/json",
    ("placeid", Value.str place_id)
    :: ifParam "language" (fun s => s != "") Value.str language⟩

/-- `place` request building: the body contains no `raise`. -/
def place_req (place_id : String) (language : Option String) :
    Except String Request :=
  .ok (place_request place_id language)

/-- `place` run against a collaborator: returns the response envelope
unchanged. -/
def place (get : Request → JVal) (place_id : String) (language : Option String) :
    Except String JVal × List Request :=
  run get id (place_req place_id language)

/-- `places_photo` request building: `if not (max_width or max_height): raise
ValueError(...)`, then the params dict.  (The streaming options passed to the
collaborator, `extract_body`/`stream`, shape only how the body is consumed and
are not modelled.) -/
def places_photo_req (photo_reference : String)
    (max_width max_height : Option Int) : Except String Request :=
  if !(pyTruthyInt max_width || pyTruthyInt max_height) then
    .error "a max_width or max_height arg is required"
  else
    .ok ⟨"/maps/api/place/photo",
      ("photoreference", Value.str photo_reference)
      :: (ifParam "maxwidth" (fun n => n != 0) Value.int max_width
      ++ ifParam "maxheight" (fun n => n != 0) Value.int max_height)⟩

/-- `places_photo` run against a collaborator. -/
def places_photo (get : Request → JVal) (photo_reference : String)
    (max_width max_height : Option Int) :
    Except String JVal × List Request :=
  run get id (places_photo_req photo_reference max_width max_height)

/-- Keyword arguments of `places_autocomplete` with their Python defaults. -/
structure AutocompleteArgs where
  input_text : String
  offset : Option Int := none
  location : Option Coordinate := none
  radius : Option Int := none
  language : Option String := none

/-- The params dict and endpoint built by `places_autocomplete`. -/
def places_autocomplete_request (a : AutocompleteArgs) : Request :=
  ⟨"/maps/api/place/queryautocomplete/json",
    ("input", Value.str a.input_text)
    :: (ifParam "offset" (fun n => n != 0) Value.int a.offset
    ++ (ifParam "location" Coordinate.truthy (fun l => Value.str (latlng l)) a.location
    ++ (ifParam "radius" (fun n => n != 0) Value.int a.radius
    ++ ifParam "language" (fun s => s != "") Value.str a.language)))⟩

/-- `places_autocomplete` request building: the body contains no `raise`. -/
def places_autocomplete_req (a : AutocompleteArgs) : Except String Request :=
  .ok (places_autocomplete_request a)

/-- `places_autocomplete` run against a collaborator: returns
`response["predictions"]`, not the full envelope. -/
def places_autocomplete (get : Request → JVal) (a : AutocompleteArgs) :
    Except String (Option JVal) × List Request :=
  run get (getField "predictions") (places_autocomplete_req a)

/-! ### Helper lemmas on association-list lookup -/

theorem lookup_cons (k k' : String) (v : Value) (l : List (String × Value)) :
    List.lookup k ((k', v) :: l) = if k = k' then some v else List.lookup k l := by
  by_cases h : k = k'
  · subst h; simp [List.lookup]
  · have hb : (k == k') = false := by simp [h]
    simp [List.lookup, hb, h]

theorem lookup_append (k : String) (l₁ l₂ : List (String × Value)) :
    List.lookup k (l₁ ++ l₂) = (List.lookup k l₁).or (List.lookup k l₂) := by
  induction l₁ with
  | nil => simp [List.lookup]
  | cons p t ih =>
      obtain ⟨k', v⟩ := p
      by_cases h : k = k'
      · subst h; simp [List.lookup]
      · have hb : (k == k') = false := by simp [h]
        simp [List.lookup, hb, ih]

theorem lookup_ifParam {α : Type} (k key : String) (t : α → Bool) (v : α → Value)
    (o : Option α) :
    (ifParam key t v o).lookup k = if k = key then optVal t v o else none := by
  cases o with
  | none => simp [ifParam, optVal]
  | some x =>
      by_cases h : t x
      · simp [ifParam, optVal, h, lookup_cons]
      · simp [ifParam, optVal, h]

theorem lookup_boolParam (k key : String) (v : Value) (b : Bool) :
    (boolParam key v b).lookup k
      = if k = key then (if b then some v else none) else none := by
  cases b <;> simp [boolParam, lookup_cons]

/-- Closed form for the `location` entry of the text-search mapping. -/
theorem places_param_location (a : PlacesArgs) :
    (places_request a).param "location"
      = optVal Coordinate.truthy (fun l => Value.str (latlng l)) a.location := by
  simp +decide [places_request, Request.param, lookup_cons, lookup_append,
    lookup_ifParam, lookup_boolParam]

/-- Closed form for the `minprice` entry of the text-search mapping. -/
theorem places_param_minprice (a : PlacesArgs) :
    (places_request a).param "minprice"
      = optVal (fun n => n != 0) Value.int a.min_price := by
  simp +decide [places_request, Request.param, lookup_cons, lookup_append,
    lookup_ifParam, lookup_boolParam]

/-- Closed form for the `maxprice` entry of the text-search mapping. -/
theorem places_param_maxprice (a : PlacesArgs) :
    (places_request a).param "maxprice"
      = optVal (fun n => n != 0) Value.int a.max_price := by
  simp +decide [places_request, Request.param, lookup_cons, lookup_append,
    lookup_ifParam, lookup_boolParam]

/-- Closed form for the `pagetoken` entry of the text-search mapping. -/
theorem places_param_pagetoken (a : PlacesArgs) :
    (places_request a).param "pagetoken"
      = optVal (fun s => s != "") Value.str a.page_token := by
  simp +decide [places_request, Request.param, lookup_cons, lookup_append,
    lookup_ifParam, lookup_boolParam]

/-- Closed form for the `location` entry of the autocomplete mapping. -/
theorem autocomplete_param_location (a : AutocompleteArgs) :
    (places_autocomplete_request a).param "location"
      = optVal Coordinate.truthy (fun l => Value.str (latlng l)) a.location := by
  simp +decide [places_autocomplete_request, Request.param, lookup_cons,
    lookup_append, lookup_ifParam]

/-! ### Claim theorems -/

/-- C1: calling `places_photo` with both `max_width` and `max_height` absent
raises the `ValueError` message synchronously, with an empty request trace
(zero collaborator calls); and it is the only operation in the module that can
raise locally: `places`, `place` and `places_autocomplete` always succeed and
perform exactly one collaborator call. -/
theorem photo_missing_size_raises_before_call :
    (∀ (get : Request → JVal) (ref : String),
        places_photo get ref none none
          = (Except.error "a max_width or max_height arg is required", []))
    ∧ (∀ (get : Request → JVal) (a : PlacesArgs),
        places get a = (Except.ok (get (places_request a)), [places_request a]))
    ∧ (∀ (get : Request → JVal) (pid : String) (lang : Option String),
        place get pid lang
          = (Except.ok (get (place_request pid lang)), [place_request pid lang]))
    ∧ (∀ (get : Request → JVal) (a : AutocompleteArgs),
        places_autocomplete get a
          = (Except.ok (getField "predictions" (get (places_autocomplete_request a))),
             [places_autocomplete_request a])) :=
  ⟨fun _ _ => rfl, fun _ _ => rfl, fun _ _ _ => rfl, fun _ _ => rfl⟩

/-- C2: each of the three accepted coordinate shapes — the string "1,2", the
mapping with lat 1 and lng 2, and the two-element sequence (1, 2) — normalizes
to the identical canonical wire string "1,2", and `places` as well as
`places_autocomplete` insert exactly that canonical string under the
`location` key. -/
theorem latlng_canonical_forms :
    (latlng (Coordinate.str "1,2") = "1,2"
      ∧ latlng (Coordinate.mapping 1 2) = "1,2"
      ∧ latlng (Coordinate.seq 1 2) = "1,2")
    ∧ (∀ (q : String) (c : Coordinate), latlng c = "1,2" → c.truthy = true →
        (places_request { query := q, location := some c }).param "location"
            = some (Value.str "1,2")
        ∧ (places_autocomplete_request { input_text := q, location := some c }).param
            "location" = some (Value.str "1,2")) := by
  constructor
  · refine ⟨rfl, ?_, ?_⟩ <;> decide
  · intro q c h ht
    rw [places_param_location, autocomplete_param_location]
    simp [optVal, ht, h]

/-- Witness for C2 at the mapping shape with lat 1, lng 2. -/
theorem latlng_canonical_forms_witness :
    (places_request { query := "restaurant",
                      location := some (Coordinate.mapping 1 2) }).param "location"
      = some (Value.str "1,2") :=
  (latlng_canonical_forms.2 "restaurant" (Coordinate.mapping 1 2) (by decide) rfl).1

/-- C3: `places_autocomplete` returns exactly the `predictions` field of the
collaborator's response envelope, never the full envelope; in particular with
a stub collaborator answering the "Pizza Place" envelope, the call on input
"pizza near New York" yields just the predictions list. -/
theorem autocomplete_returns_predictions :
    (∀ (get : Request → JVal) (a : AutocompleteArgs),
        (places_autocomplete get a).1
          = Except.ok (getField "predictions" (get (places_autocomplete_request a))))
    ∧ (∀ (a : AutocompleteArgs) (v : JVal) (rest : List (String × JVal)),
        (places_autocomplete (fun _ => JVal.obj (("predictions", v) :: rest)) a).1
          = Except.ok (some v))
    ∧ ((places_autocomplete
          (fun _ => JVal.obj [("predictions",
              JVal.arr [JVal.obj [("description", JVal.str "Pizza Place")]])])
          { input_text := "pizza near New York" }).1
        = Except.ok (some (JVal.arr [JVal.obj [("description", JVal.str "Pizza Place")]]))) := by
  refine ⟨fun _ _ => rfl, fun a v rest => ?_, ?_⟩
  · simp [places_autocomplete, run, places_autocomplete_req, getField, List.lookup]
  · rfl

/-- C4: in text search, `open_now = true` puts the key `opennow` with the
literal string "true" into the mapping, while `open_now = false` — the
signature default — yields no `opennow` key at all (the value "false" is never
sent). -/
theorem places_opennow_param (a : PlacesArgs) :
    (places_request a).param "opennow"
      = (if a.open_now then some (Value.str "true") else none)
    ∧ ({ query := a.query } : PlacesArgs).open_now = false := by
  constructor
  · simp +decide [places_request, Request.param, lookup_cons, lookup_append,
      lookup_ifParam, lookup_boolParam]
  · rfl

/-- C5: `place` with id "abc123" and language "en" performs exactly one
collaborator call with path `/maps/api/place/details/json` and params
placeid = "abc123", language = "en", returning the response unchanged; with
language absent the mapping holds `placeid` only. -/
theorem place_details_scenario :
    (∀ get : Request → JVal,
        place get "abc123" (some "en")
          = (Except.ok (get ⟨"/maps/api/place/details/json",
                [("placeid", Value.str "abc123"), ("language", Value.str "en")]⟩),
             [⟨"/maps/api/place/details/json",
                [("placeid", Value.str "abc123"), ("language", Value.str "en")]⟩]))
    ∧ (∀ (get : Request → JVal) (pid : String),
        place get pid none
          = (Except.ok (get ⟨"/maps/api/place/details/json",
                [("placeid", Value.str pid)]⟩),
             [⟨"/maps/api/place/details/json", [("placeid", Value.str pid)]⟩])) :=
  ⟨fun _ => rfl, fun _ _ => rfl⟩

/-- C6: `places_photo` with only `max_height` supplied (nonzero, `max_width`
absent) builds a mapping that contains `photoreference` and `maxheight` with
the given value and no `maxwidth` key. -/
theorem photo_maxheight_only (ref : String) (h : Int) (hh : h ≠ 0) :
    places_photo_req ref none (some h)
      = Except.ok ⟨"/maps/api/place/photo",
          [("photoreference", Value.str ref), ("maxheight", Value.int h)]⟩
    ∧ ∀ r : Request, places_photo_req ref none (some h) = Except.ok r →
        r.param "photoreference" = some (Value.str ref)
        ∧ r.param "maxheight" = some (Value.int h)
        ∧ r.param "maxwidth" = none := by
  have hb : (h != 0) = true := by simpa using hh
  have h1 : places_photo_req ref none (some h)
      = Except.ok ⟨"/maps/api/place/photo",
          [("photoreference", Value.str ref), ("maxheight", Value.int h)]⟩ := by
    simp [places_photo_req, pyTruthyInt, hb, ifParam]
  refine ⟨h1, fun r hr => ?_⟩
  rw [h1] at hr
  injection hr with h2
  subst h2
  refine ⟨?_, ?_, ?_⟩ <;>
    simp +decide [Request.param, lookup_cons]

/-- Witness for C6 at max_height = 100. -/
theorem photo_maxheight_only_witness :
    places_photo_req "photoref" none (some 100)
      = Except.ok ⟨"/maps/api/place/photo",
          [("photoreference", Value.str "photoref"), ("maxheight", Value.int 100)]⟩ :=
  (photo_maxheight_only "photoref" 100 (by decide)).1

/-- C7: in text search, supplying a (nonempty) page token puts `pagetoken`
with exactly that token into the mapping, and the `pagetoken` entry depends
only on the `page_token` argument — it is independent of every other optional
field. -/
theorem places_pagetoken_param :
    (∀ (a : PlacesArgs) (t : String), a.page_token = some t → t ≠ "" →
        (places_request a).param "pagetoken" = some (Value.str t))
    ∧ (∀ a a' : PlacesArgs, a.page_token = a'.page_token →
        (places_request a).param "pagetoken"
          = (places_request a').param "pagetoken") := by
  constructor
  · intro a t ha ht
    rw [places_param_pagetoken, ha]
    simp [optVal, ht]
  · intro a a' hp
    rw [places_param_pagetoken, places_param_pagetoken, hp]

/-- Witness for C7 at token "tok123". -/
theorem places_pagetoken_param_witness :
    (places_request { query := "pizza",
                      page_token := some "tok123" }).param "pagetoken"
      = some (Value.str "tok123") :=
  places_pagetoken_param.1 _ "tok123" rfl (by decide)

/-- C8: `places` performs no local validation: for every query (the empty
string included) and every combination of optional arguments it builds the
mapping and performs exactly one collaborator call, never raising before the
call. -/
theorem places_no_local_validation :
    ∀ (get : Request → JVal) (a : PlacesArgs),
      places get a = (Except.ok (get (places_request a)), [places_request a]) :=
  fun _ _ => rfl

/-- C9: because the size-hint guard tests truthiness, `places_photo` with
`max_width = 0` and `max_height = 0` raises the very same `ValueError` as when
both are absent (zero collaborator calls), and a supplied size hint of 0 is
never placed in the mapping. -/
theorem photo_zero_size_falsy :
    (∀ ref : String,
        places_photo_req ref (some 0) (some 0)
          = Except.error "a max_width or max_height arg is required"
        ∧ places_photo_req ref (some 0) (some 0) = places_photo_req ref none none
        ∧ ∀ get : Request → JVal, (places_photo get ref (some 0) (some 0)).2 = [])
    ∧ (∀ (ref : String) (w : Int), w ≠ 0 →
        ∃ r, places_photo_req ref (some w) (some 0) = Except.ok r
          ∧ r.param "maxheight" = none ∧ r.param "maxwidth" = some (Value.int w))
    ∧ (∀ (ref : String) (hgt : Int), hgt ≠ 0 →
        ∃ r, places_photo_req ref (some 0) (some hgt) = Except.ok r
          ∧ r.param "maxwidth" = none ∧ r.param "maxheight" = some (Value.int hgt)) := by
  refine ⟨fun ref => ⟨rfl, rfl, fun get => rfl⟩, ?_, ?_⟩
  · intro ref w hw
    have hb : (w != 0) = true := by simpa using hw
    refine ⟨⟨"/maps/api/place/photo",
        [("photoreference", Value.str ref), ("maxwidth", Value.int w)]⟩, ?_, ?_, ?_⟩
    · simp [places_photo_req, pyTruthyInt, hb, ifParam]
    · simp +decide [Request.param, lookup_cons]
    · simp +decide [Request.param, lookup_cons]
  · intro ref hgt hh
    have hb : (hgt != 0) = true := by simpa using hh
    refine ⟨⟨"/maps/api/place/photo",
        [("photoreference", Value.str ref), ("maxheight", Value.int hgt)]⟩, ?_, ?_, ?_⟩
    · simp [places_photo_req, pyTruthyInt, hb, ifParam]
    · simp +decide [Request.param, lookup_cons]
    · simp +decide [Request.param, lookup_cons]

/-- Witness for C9 at width 50 resp. height 60 with the other hint 0. -/
theorem photo_zero_size_falsy_witness :
    (∃ r, places_photo_req "ref" (some 50) (some 0) = Except.ok r
      ∧ Request.param r "maxheight" = none
      ∧ Request.param r "maxwidth" = some (Value.int 50))
    ∧ (∃ r, places_photo_req "ref" (some 0) (some 60) = Except.ok r
      ∧ Request.param r "maxwidth" = none
      ∧ Request.param r "maxheight" = some (Value.int 60)) :=
  ⟨photo_zero_size_falsy.2.1 "ref" 50 (by decide),
   photo_zero_size_falsy.2.2 "ref" 60 (by decide)⟩

/-- C10: because `places` tests truthiness, a price bound of 0 — a valid price
level — produces no `minprice` (resp. `maxprice`) key, exactly as when the
bound is unset: price level 0 is indistinguishable from an absent bound. -/
theorem places_price_zero_omitted (a : PlacesArgs) :
    (a.min_price = some 0 → (places_request a).param "minprice" = none)
    ∧ (a.max_price = some 0 → (places_request a).param "maxprice" = none)
    ∧ (a.min_price = none → (places_request a).param "minprice" = none)
    ∧ (a.max_price = none → (places_request a).param "maxprice" = none) := by
  refine ⟨?_, ?_, ?_, ?_⟩ <;> intro h <;>
    first
    | (rw [places_param_minprice, h]; simp [optVal])
    | (rw [places_param_maxprice, h]; simp [optVal])

/-- Witness for C10 at min_price = 0 and max_price = 0. -/
theorem places_price_zero_omitted_witness :
    (places_request { query := "q", min_price := some 0,
                      max_price := some 0 }).param "minprice" = none
    ∧ (places_request { query := "q", min_price := some 0,
                        max_price := some 0 }).param "maxprice" = none :=
  ⟨(places_price_zero_omitted _).1 rfl, (places_price_zero_omitted _).2.1 rfl⟩

end Places
